import Mathlib

/-!
Verification of the asyncRequestProxy service (`main.py`, `utilities.py`).

The service accepts a `ForwardRequest` (a free-text HTTP request description
plus a list of webhook URLs), asks a chat-completion backend to synthesize an
async `httpx_request` function, schedules that function as a background task,
returns an immediate acknowledgment, and — when the task completes
successfully — fans the resulting HTTP response out to every webhook via
`forward_response`.

The embedding below models the endpoint `root` (main.py lines 69-133), the
completion callback `reply_to_webhooks` (lines 122-130) and the delivery
function `forward_response` (utilities.py lines 6-41).  External collaborators
(the httpx library, the model backend, the network) are abstracted as explicit
oracle parameters: the backend call is a function from the request payload to
either an error or an `HttpxResponse`; `exec` of the model reply is a function
from the reply text to success or error; each webhook POST has its own network
outcome.  All of the service's own branching, field construction and resource
handling is translated directly from the source.
-/

namespace AsyncRequestProxy

/-- JSON values, modelling Python dicts/lists/strings/numbers as they are
used by the service (numbers restricted to integers, which is all the code
produces). -/
inductive Json where
  | null : Json
  | bool : Bool → Json
  | num : Int → Json
  | str : String → Json
  | arr : List Json → Json
  | obj : List (String × Json) → Json
deriving Repr

/-- Python `d[k]` on a dict-like JSON value: `some` of the value when the key
is present on an object, `none` (KeyError / TypeError) otherwise. -/
def Json.getKey : Json → String → Option Json
  | .obj fields, k => fields.lookup k
  | _, _ => none

/-- Python `l[i]` on a list-like JSON value: `some` of the element when in
range on an array, `none` (IndexError / TypeError) otherwise. -/
def Json.getIdx : Json → Nat → Option Json
  | .arr xs, i => xs[i]?
  | _, _ => none

/-- A JSON value usable as the argument of `exec`: `some` of the string when
it is a string, `none` (TypeError) otherwise. -/
def Json.asStr : Json → Option String
  | .str s => some s
  | _ => none

/-- Error details carried by the abstract failure cases (exception message). -/
abbrev Exn := String

/-- Python substring test at the head of a list: does `needle` occur as a
prefix of `hay`? Helper for `strContains`. -/
def matchHere : List Char → List Char → Bool
  | _, [] => true
  | [], _ :: _ => false
  | a :: as, b :: bs => a == b && matchHere as bs

/-- Python substring test over character lists: does `needle` occur
contiguously anywhere in `hay`? Helper for `strContains`. -/
def containsSub : List Char → List Char → Bool
  | [], needle => needle.isEmpty
  | a :: as, needle => matchHere (a :: as) needle || containsSub as needle

/-- Python's `needle in hay` on strings (substring containment), as used in
`forward_response`'s Content-Type dispatch. -/
def strContains (hay needle : String) : Bool :=
  containsSub hay.toList needle.toList

/-- The base64 alphabet used by Python's `base64.b64encode`. -/
def b64Alphabet : List Char :=
  "ABCDEFGHIJKLMNOPQRSTUVWXYZabcdefghijklmnopqrstuvwxyz0123456789+/".toList

/-- The character encoding a 6-bit group (`n < 64`). -/
def sextetChar (n : Nat) : Char := b64Alphabet.getD n 'A'

/-- The 6-bit value of an alphabet character (inverse of `sextetChar`). -/
def sextetVal (c : Char) : Nat := b64Alphabet.indexOf c

/-- Standard base64 encoding of a byte sequence, three bytes to four
characters, with `=` padding, exactly as `base64.b64encode` produces. -/
def b64EncodeChunks : List Nat → List Char
  | [] => []
  | [a] => [sextetChar (a / 4), sextetChar (a % 4 * 16), '=', '=']
  | [a, b] =>
      [sextetChar (a / 4), sextetChar (a % 4 * 16 + b / 16),
       sextetChar (b % 16 * 4), '=']
  | a :: b :: c :: rest =>
      sextetChar (a / 4) :: sextetChar (a % 4 * 16 + b / 16) ::
      sextetChar (b % 16 * 4 + c / 64) :: sextetChar (c % 64) ::
      b64EncodeChunks rest

/-- `base64.b64encode(bytes).decode('utf-8')` — the string stored in the
`response_data` field for binary payloads (utilities.py line 30). -/
def b64encode (bs : List Nat) : String := String.mk (b64EncodeChunks bs)

/-- Base64 decoding of the 6-bit values, four sextets back to three bytes
(the final group of two or three sextets yields one or two bytes). -/
def decodeSextets : List Nat → List Nat
  | [v1, v2] => [v1 * 4 + v2 / 16]
  | [v1, v2, v3] => [v1 * 4 + v2 / 16, v2 % 16 * 16 + v3 / 4]
  | v1 :: v2 :: v3 :: v4 :: rest =>
      (v1 * 4 + v2 / 16) :: (v2 % 16 * 16 + v3 / 4) :: (v3 % 4 * 64 + v4) ::
      decodeSextets rest
  | _ => []

/-- `base64.b64decode` on a well-formed encoding: strip padding, map
characters back to 6-bit values, reassemble bytes. -/
def b64decode (s : String) : List Nat :=
  decodeSextets ((s.toList.filter (fun c => c != '=')).map sextetVal)

/-- The data of an `httpx.Response` as `forward_response` and `root` consume
it.  `jsonResult` is the outcome of `r.json()` (`error` = `ValueError`),
`text` is `r.text`, `content` is the raw byte payload `r.content`. -/
structure HttpxResponse where
  status_code : Nat
  headers : List (String × String)
  content : List Nat
  jsonResult : Except Exn Json
  text : String

/-- Python `headers.get(key, dflt)`. -/
def headersGet (hs : List (String × String)) (key : String) (dflt : String) : String :=
  (hs.lookup key).getD dflt

/-- `r.headers.get('Content-Type', '')` as used in `forward_response`. -/
def contentType (r : HttpxResponse) : String :=
  headersGet r.headers "Content-Type" ""

/-- The failure modes of one webhook delivery: the response body could not be
decoded as its declared content type (`r.json()` raised), or the POST to the
webhook failed on the network. -/
inductive DeliveryError where
  | encoding : Exn → DeliveryError
  | network : Exn → DeliveryError
deriving Repr, DecidableEq

/-- The `post_json` construction of `forward_response` (utilities.py lines
12-31): dispatch on the declared Content-Type and build the two-field envelope
`response_status_code` / `response_data`.  Returns `error` when the JSON
branch is taken and `r.json()` raises. -/
def encodeResponse (r : HttpxResponse) : Except Exn Json :=
  if strContains (contentType r) "application/json" then
    match r.jsonResult with
    | .error e => .error e
    | .ok response_data =>
        .ok (.obj [("response_status_code", .num (r.status_code : Int)),
                   ("response_data", response_data)])
  else if strContains (contentType r) "text" then
    .ok (.obj [("response_status_code", .num (r.status_code : Int)),
               ("response_data", .str r.text)])
  else
    .ok (.obj [("response_status_code", .num (r.status_code : Int)),
               ("response_data", .str (b64encode r.content))])

/-- Everything one call of `forward_response` did: the POSTs it issued (URL
and JSON body), whether it created and closed its own fallback client,
whether it ever closed a caller-supplied shared client, and its outcome. -/
structure DeliveryTrace where
  posted : List (String × Json)
  newClientCreated : Bool
  newClientClosed : Bool
  sharedClientClosed : Bool
  result : Except DeliveryError Nat
deriving Repr

/-- `forward_response(r, forward_url, client)` (utilities.py lines 6-41).

`client` is `some ()` when a shared `httpx.AsyncClient` is passed, `none`
when the argument is absent (Python default `None`).  `post` is the network's
answer to the single `client.post(forward_url, json=post_json)`: `ok` with
the webhook's status code, or `error` when the POST raises.

The body mirrors the source: build `post_json` (raising out of the function
on a JSON decode failure, before any client is touched); then
`client = client or (new_c := httpx.AsyncClient())`; then POST inside
`try/finally`, where the `finally` closes `new_c` when it was created — on
the normal return and on the raising path alike. -/
def forward_response (r : HttpxResponse) (forward_url : String)
    (client : Option Unit) (post : Except Exn Nat) : DeliveryTrace :=
  match encodeResponse r with
  | .error e =>
      { posted := [], newClientCreated := false, newClientClosed := false,
        sharedClientClosed := false, result := .error (.encoding e) }
  | .ok post_json =>
      let fresh := client.isNone
      match post with
      | .ok forward_res =>
          { posted := [(forward_url, post_json)], newClientCreated := fresh,
            newClientClosed := fresh, sharedClientClosed := false,
            result := .ok forward_res }
      | .error e =>
          { posted := [(forward_url, post_json)], newClientCreated := fresh,
            newClientClosed := fresh, sharedClientClosed := false,
            result := .error (.network e) }

/-- The request body model of the endpoint (main.py lines 26-52):
`http_desc` free text, `webhooks` a list of URLs which may be empty
(`min_items=0`). -/
structure ForwardRequest where
  http_desc : String
  webhooks : List String

/-- The completion callback `reply_to_webhooks` (main.py lines 122-130).

`taskResult` is the finished background task's outcome.  If the task raised,
the callback re-raises that exception (it escapes into asyncio's
unhandled-callback-error channel): modelled as `error` with the same
exception.  Otherwise it schedules one `forward_response` task per webhook,
in list order, each against the shared client: modelled as the list of
(response, webhook) pairs handed to `forward_response`. -/
def reply_to_webhooks (webhooks : List String)
    (taskResult : Except Exn HttpxResponse) :
    Except Exn (List (HttpxResponse × String)) :=
  match taskResult with
  | .error e => .error e
  | .ok resp => .ok (webhooks.map (fun webhook => (resp, webhook)))

/-- Execution of the delivery tasks scheduled by `reply_to_webhooks`: each
scheduled pair becomes an independent `forward_response` call with the shared
client, the `i`-th delivery seeing its own network outcome `outcomes i`. -/
def runDeliveries : List (HttpxResponse × String) → (Nat → Except Exn Nat) →
    List DeliveryTrace
  | [], _ => []
  | p :: rest, outcomes =>
      forward_response p.1 p.2 (some ()) (outcomes 0) ::
      runDeliveries rest (fun i => outcomes (i + 1))

/-- The fixed system instruction of the synthesis prompt (main.py lines
86-94). -/
def systemPrompt : String :=
  "你是Python代码生成器，httpx是你主要使用的库。你会收到HTTP请求的描述，将其转化为一个叫“httpx_request”的异步函数，该函数只接受一个参数“httpx_client”，是httpx.AsyncClient的实例，你的全部回复就是这个异步函数定义代码，即以\x27async def httpx_request(httpx_client):\x27开头的普通文本且没有markdown代码。例如用户问题“发送一个POST请求到‘https://www.example.com’，携带JSON\x7b\"name\":\"John\",\"age\":30\x7d”，那么你的全部回复是“\nasync def httpx_request(httpx_client):\n    return await httpx_client.post(\x27https://www.example.com\x27, json=\x7b\x27name\x27: \x27John\x27, \x27age\x27: 30\x7d)\n”\n”"

/-- The chat-completion payload built by `root` (main.py lines 81-101). -/
def buildPayload (model : String) (http_desc : String) : Json :=
  .obj [("model", .str model),
        ("messages",
         .arr [.obj [("role", .str "system"), ("content", .str systemPrompt)],
               .obj [("role", .str "user"), ("content", .str http_desc)]])]

/-- `response_data["choices"][0]["message"]["content"]` (main.py line 118),
followed by the requirement that the extracted reply is a string usable by
`exec`: `none` models the KeyError / IndexError / TypeError raised when the
backend reply does not have the expected shape. -/
def extractReply (response_data : Json) : Option String := do
  let choices ← response_data.getKey "choices"
  let choice0 ← choices.getIdx 0
  let message ← choice0.getKey "message"
  let content ← message.getKey "content"
  content.asStr

/-- httpx `Response.is_success`, the condition under which
`raise_for_status()` does not raise. -/
def is_success (status : Nat) : Bool :=
  decide (200 ≤ status) && decide (status < 300)

/-- The synchronous failure modes of the endpoint, all surfaced to the caller
as 500-class errors: the backend POST raised, `raise_for_status()` raised on
a non-success status, the backend body was not valid JSON (HTTPException 500),
the reply did not have the `choices[0].message.content` string shape, or
`exec` of the reply raised. -/
inductive RootError where
  | backendNetwork : Exn → RootError
  | backendStatus : Nat → RootError
  | invalidJson : RootError
  | replyShape : RootError
  | execError : Exn → RootError
deriving Repr, DecidableEq

/-- The external collaborators of one endpoint invocation: the model name
from the environment, the model backend (a function from the POSTed payload
to the backend's HTTP response, or a raised transport error), and the Python
`exec` of the reply text together with the lookup of the resulting
`httpx_request` callable (`error` when `exec` raises or the name is not bound
to a callable). -/
structure SynthEnv where
  model : String
  backendCall : Json → Except Exn HttpxResponse
  execOracle : String → Except Exn Unit

/-- The endpoint handler `root` (main.py lines 69-133) up to the point where
it either raises or — having scheduled the background task — returns its
response body.  The success value is the returned dict
`{"code": 200, "msg": "success", "data": ""}` (braces elided): synthesis made
it to line 132, the task was created, and line 133 returned. -/
def root (request_data : ForwardRequest) (env : SynthEnv) : Except RootError Json :=
  let payload := buildPayload env.model request_data.http_desc
  match env.backendCall payload with
  | .error e => .error (.backendNetwork e)
  | .ok response =>
      if is_success response.status_code then
        match response.jsonResult with
        | .error _ => .error .invalidJson
        | .ok response_data =>
            match extractReply response_data with
            | none => .error .replyShape
            | some reply =>
                match env.execOracle reply with
                | .error e => .error (.execError e)
                | .ok _ =>
                    .ok (.obj [("code", .num 200), ("msg", .str "success"),
                               ("data", .str "")])
      else .error (.backendStatus response.status_code)

/-- The acknowledgment body returned on line 133. -/
def ackJson : Json :=
  .obj [("code", .num 200), ("msg", .str "success"), ("data", .str "")]

/-- The observable outcome of one whole invocation: the synchronous response
(500-class error or returned body), whether the background task was ever
created, whether the completion callback re-raised, and the delivery traces
of the webhook POSTs that were scheduled and run. -/
structure PipelineResult where
  response : Except RootError Json
  taskScheduled : Bool
  callbackRaised : Bool
  deliveries : List DeliveryTrace
deriving Repr

/-- One whole invocation: run `root`; when it returns, the scheduled task
finishes with `actionResult` (the synthesized action's own execution), the
completion callback `reply_to_webhooks` fires, and any deliveries it
scheduled are run against the per-webhook network outcomes. -/
def pipeline (request_data : ForwardRequest) (env : SynthEnv)
    (actionResult : Except Exn HttpxResponse)
    (outcomes : Nat → Except Exn Nat) : PipelineResult :=
  match root request_data env with
  | .error e =>
      { response := .error e, taskScheduled := false, callbackRaised := false,
        deliveries := [] }
  | .ok ack =>
      match reply_to_webhooks request_data.webhooks actionResult with
      | .error _ =>
          { response := .ok ack, taskScheduled := true, callbackRaised := true,
            deliveries := [] }
      | .ok scheduled =>
          { response := .ok ack, taskScheduled := true,
            callbackRaised := false,
            deliveries := runDeliveries scheduled outcomes }

/-- The two Content-Type dispatch conditions of `forward_response`, named for
readability: the declared Content-Type contains `application/json`. -/
def ctDeclaresJson (r : HttpxResponse) : Prop :=
  strContains (contentType r) "application/json" = true

/-- The declared Content-Type contains `text`. -/
def ctDeclaresText (r : HttpxResponse) : Prop :=
  strContains (contentType r) "text" = true

instance (r : HttpxResponse) : Decidable (ctDeclaresJson r) := by
  unfold ctDeclaresJson; infer_instance

instance (r : HttpxResponse) : Decidable (ctDeclaresText r) := by
  unfold ctDeclaresText; infer_instance

/-- The synchronous-failure condition of claim C2, phrased over the oracles:
the backend call errors, or the backend status is not a success, or its body
is not JSON, or the reply does not have the expected callable shape, or
`exec` of the reply raises. -/
def synthesisFails (request_data : ForwardRequest) (env : SynthEnv) : Prop :=
  match env.backendCall (buildPayload env.model request_data.http_desc) with
  | .error _ => True
  | .ok response =>
      is_success response.status_code = false ∨
      match response.jsonResult with
      | .error _ => True
      | .ok response_data =>
          extractReply response_data = none ∨
          ∀ reply, extractReply response_data = some reply →
            ∃ e, env.execOracle reply = .error e

/-- A well-formed chat-completion reply carrying a synthesized function. -/
def backendReplyEx : Json :=
  .obj [("choices",
         .arr [.obj [("message",
                      .obj [("content",
                             .str "async def httpx_request(httpx_client): return await httpx_client.get(url)")])]])]

/-- A successful backend response wrapping `backendReplyEx`. -/
def backendRespEx : HttpxResponse :=
  { status_code := 200, headers := [("Content-Type", "application/json")],
    content := [], jsonResult := .ok backendReplyEx, text := "" }

/-- An environment in which synthesis succeeds. -/
def envOkEx : SynthEnv :=
  { model := "gpt-4o", backendCall := fun _ => .ok backendRespEx,
    execOracle := fun _ => .ok () }

/-- An environment in which the backend call raises. -/
def envFailEx : SynthEnv :=
  { model := "gpt-4o", backendCall := fun _ => .error "connection refused",
    execOracle := fun _ => .ok () }

/-- A sample request with two webhooks. -/
def reqEx : ForwardRequest :=
  { http_desc := "send a GET request to example.com",
    webhooks := ["http://localhost:8000/receive_data", "http://host2/hook"] }

/-- A sample JSON response produced by a synthesized action. -/
def rJsonEx : HttpxResponse :=
  { status_code := 201, headers := [("Content-Type", "application/json")],
    content := [], jsonResult := .ok (.obj [("a", .num 1)]), text := "" }

/-- A sample text response produced by a synthesized action. -/
def rTextEx : HttpxResponse :=
  { status_code := 200, headers := [("Content-Type", "text/plain")],
    content := [], jsonResult := .error "Expecting value", text := "ok" }

/-- A sample binary response produced by a synthesized action. -/
def rBinEx : HttpxResponse :=
  { status_code := 200, headers := [("Content-Type", "application/octet-stream")],
    content := [0, 1, 2, 77, 97, 110, 250, 255],
    jsonResult := .error "Expecting value", text := "" }

/-- A sample response declaring JSON whose body fails to parse. -/
def rBadJsonEx : HttpxResponse :=
  { status_code := 200, headers := [("Content-Type", "application/json")],
    content := [60, 104, 116, 109, 108, 62],
    jsonResult := .error "Expecting value: line 1 column 1", text := "<html>" }

/-! ### Base64 helper lemmas -/

/-- `sextetVal` inverts `sextetChar` on 6-bit values. -/
theorem sextetVal_sextetChar : ∀ n, n < 64 → sextetVal (sextetChar n) = n := by
  decide

/-- Alphabet characters are never the padding character. -/
theorem sextetChar_ne_pad : ∀ n, n < 64 → (sextetChar n != '=') = true := by
  decide

/-- Decoding the padded-and-filtered encoding of a byte list recovers the
bytes, chunk by chunk. -/
theorem decodeSextets_encodeChunks : ∀ bs : List Nat, (∀ x ∈ bs, x < 256) →
    decodeSextets (((b64EncodeChunks bs).filter (fun c => c != '=')).map sextetVal) = bs := by
  intro bs
  induction bs using b64EncodeChunks.induct with
  | case1 =>
      intro _
      simp [b64EncodeChunks, decodeSextets]
  | case2 a =>
      intro h
      have ha : a < 256 := h a (by simp)
      have n1 := sextetChar_ne_pad (a / 4) (by omega)
      have n2 := sextetChar_ne_pad (a % 4 * 16) (by omega)
      have e1 := sextetVal_sextetChar (a / 4) (by omega)
      have e2 := sextetVal_sextetChar (a % 4 * 16) (by omega)
      simp [b64EncodeChunks, List.filter, n1, n2, decodeSextets, e1, e2]
      omega
  | case3 a b =>
      intro h
      have ha : a < 256 := h a (by simp)
      have hb : b < 256 := h b (by simp)
      have n1 := sextetChar_ne_pad (a / 4) (by omega)
      have n2 := sextetChar_ne_pad (a % 4 * 16 + b / 16) (by omega)
      have n3 := sextetChar_ne_pad (b % 16 * 4) (by omega)
      have e1 := sextetVal_sextetChar (a / 4) (by omega)
      have e2 := sextetVal_sextetChar (a % 4 * 16 + b / 16) (by omega)
      have e3 := sextetVal_sextetChar (b % 16 * 4) (by omega)
      simp [b64EncodeChunks, List.filter, n1, n2, n3, decodeSextets, e1, e2, e3]
      constructor <;> omega
  | case4 a b c rest ih =>
      intro h
      have ha : a < 256 := h a (by simp)
      have hb : b < 256 := h b (by simp)
      have hc : c < 256 := h c (by simp)
      have hrest : ∀ x ∈ rest, x < 256 := fun x hx => h x (by simp [hx])
      have n1 := sextetChar_ne_pad (a / 4) (by omega)
      have n2 := sextetChar_ne_pad (a % 4 * 16 + b / 16) (by omega)
      have n3 := sextetChar_ne_pad (b % 16 * 4 + c / 64) (by omega)
      have n4 := sextetChar_ne_pad (c % 64) (by omega)
      have e1 := sextetVal_sextetChar (a / 4) (by omega)
      have e2 := sextetVal_sextetChar (a % 4 * 16 + b / 16) (by omega)
      have e3 := sextetVal_sextetChar (b % 16 * 4 + c / 64) (by omega)
      have e4 := sextetVal_sextetChar (c % 64) (by omega)
      simp [b64EncodeChunks, List.filter, n1, n2, n3, n4, decodeSextets,
            e1, e2, e3, e4, ih hrest]
      refine ⟨by omega, by omega, by omega⟩

/-- Round trip of the modelled `base64.b64encode` / `base64.b64decode` on
byte payloads. -/
theorem b64decode_b64encode (bs : List Nat) (h : ∀ x ∈ bs, x < 256) :
    b64decode (b64encode bs) = bs := by
  have htl : (b64encode bs).toList = b64EncodeChunks bs := rfl
  rw [b64decode, htl]
  exact decodeSextets_encodeChunks bs h

/-! ### Orchestration helper lemmas -/

/-- One delivery task is created per scheduled pair. -/
theorem runDeliveries_length : ∀ (sch : List (HttpxResponse × String))
    (outcomes : Nat → Except Exn Nat),
    (runDeliveries sch outcomes).length = sch.length := by
  intro sch
  induction sch with
  | nil => intro _; rfl
  | cons p rest ih =>
      intro outcomes
      simp [runDeliveries, ih]

/-- The `i`-th delivery trace is `forward_response` of the `i`-th scheduled
pair alone, against the shared client and its own network outcome. -/
theorem runDeliveries_getElem : ∀ (sch : List (HttpxResponse × String))
    (outcomes : Nat → Except Exn Nat) (i : Nat),
    (runDeliveries sch outcomes)[i]? =
      (sch[i]?).map (fun p => forward_response p.1 p.2 (some ()) (outcomes i)) := by
  intro sch
  induction sch with
  | nil =>
      intro outcomes i
      simp [runDeliveries]
  | cons p rest ih =>
      intro outcomes i
      cases i with
      | zero => simp [runDeliveries]
      | succ j =>
          simp [runDeliveries, ih (fun k => outcomes (k + 1)) j]

/-- The only value `root` ever returns is the fixed acknowledgment body. -/
theorem root_ok_ack (request_data : ForwardRequest) (env : SynthEnv) (j : Json)
    (h : root request_data env = .ok j) : j = ackJson := by
  simp only [root] at h
  repeat' split at h
  all_goals simp_all [ackJson]

/-- When `root` raises, the invocation ends with no task and no deliveries. -/
theorem pipeline_of_root_error (request_data : ForwardRequest) (env : SynthEnv)
    (actionResult : Except Exn HttpxResponse) (outcomes : Nat → Except Exn Nat)
    (e : RootError) (h : root request_data env = .error e) :
    pipeline request_data env actionResult outcomes =
      { response := .error e, taskScheduled := false, callbackRaised := false,
        deliveries := [] } := by
  unfold pipeline
  rw [h]

/-- When `root` returns and the action raised, the callback re-raises and
schedules nothing. -/
theorem pipeline_of_action_error (request_data : ForwardRequest) (env : SynthEnv)
    (outcomes : Nat → Except Exn Nat) (ack : Json) (e : Exn)
    (h : root request_data env = .ok ack) :
    pipeline request_data env (.error e) outcomes =
      { response := .ok ack, taskScheduled := true, callbackRaised := true,
        deliveries := [] } := by
  unfold pipeline
  rw [h]
  rfl

/-- When `root` returns and the action completed, the callback schedules one
delivery per webhook and the deliveries run independently. -/
theorem pipeline_of_action_ok (request_data : ForwardRequest) (env : SynthEnv)
    (outcomes : Nat → Except Exn Nat) (ack : Json) (resp : HttpxResponse)
    (h : root request_data env = .ok ack) :
    pipeline request_data env (.ok resp) outcomes =
      { response := .ok ack, taskScheduled := true, callbackRaised := false,
        deliveries :=
          runDeliveries (request_data.webhooks.map fun w => (resp, w)) outcomes } := by
  unfold pipeline
  rw [h]
  rfl

/-- JSON branch of the encoder: parsed body under `response_data`. -/
theorem encodeResponse_json (r : HttpxResponse) (j : Json)
    (hct : ctDeclaresJson r) (hj : r.jsonResult = .ok j) :
    encodeResponse r =
      .ok (.obj [("response_status_code", .num (r.status_code : Int)),
                 ("response_data", j)]) := by
  have hct2 : strContains (contentType r) "application/json" = true := hct
  unfold encodeResponse
  rw [if_pos hct2, hj]

/-- Text branch of the encoder: decoded text under `response_data`. -/
theorem encodeResponse_text (r : HttpxResponse)
    (hnj : ¬ ctDeclaresJson r) (ht : ctDeclaresText r) :
    encodeResponse r =
      .ok (.obj [("response_status_code", .num (r.status_code : Int)),
                 ("response_data", .str r.text)]) := by
  have hnj2 : ¬ strContains (contentType r) "application/json" = true := hnj
  have ht2 : strContains (contentType r) "text" = true := ht
  unfold encodeResponse
  rw [if_neg hnj2, if_pos ht2]

/-- Binary branch of the encoder: base64 string under `response_data`. -/
theorem encodeResponse_binary (r : HttpxResponse)
    (hnj : ¬ ctDeclaresJson r) (hnt : ¬ ctDeclaresText r) :
    encodeResponse r =
      .ok (.obj [("response_status_code", .num (r.status_code : Int)),
                 ("response_data", .str (b64encode r.content))]) := by
  have hnj2 : ¬ strContains (contentType r) "application/json" = true := hnj
  have hnt2 : ¬ strContains (contentType r) "text" = true := hnt
  unfold encodeResponse
  rw [if_neg hnj2, if_neg hnt2]

/-- JSON branch of the encoder when `r.json()` raised: the error propagates
out of the envelope construction before any POST. -/
theorem encodeResponse_json_error (r : HttpxResponse) (e : Exn)
    (hct : ctDeclaresJson r) (hj : r.jsonResult = .error e) :
    encodeResponse r = .error e := by
  have hct2 : strContains (contentType r) "application/json" = true := hct
  unfold encodeResponse
  rw [if_pos hct2, hj]

/-! ### Claim theorems -/

/-- C1: for every request whose synthesis succeeds, the endpoint returns
exactly the acknowledgment `code 200 / msg "success" / data ""` with the
background task scheduled, and this synchronous outcome is the same whatever
the scheduled action later does — the caller receives no other synchronous
outcome of the action. -/
theorem endpoint_returns_immediate_ack (request_data : ForwardRequest)
    (env : SynthEnv) (ack : Json) (h : root request_data env = .ok ack) :
    ack = ackJson ∧
    ∀ (actionResult : Except Exn HttpxResponse) (outcomes : Nat → Except Exn Nat),
      (pipeline request_data env actionResult outcomes).response = .ok ackJson ∧
      (pipeline request_data env actionResult outcomes).taskScheduled = true := by
  have hack := root_ok_ack request_data env ack h
  subst hack
  refine ⟨rfl, fun actionResult outcomes => ?_⟩
  cases actionResult with
  | error e =>
      rw [pipeline_of_action_error request_data env outcomes ackJson e h]
      exact ⟨rfl, rfl⟩
  | ok resp =>
      rw [pipeline_of_action_ok request_data env outcomes ackJson resp h]
      exact ⟨rfl, rfl⟩

/-- Witness for C1: a concrete succeeding synthesis; the acknowledgment is
returned even though the action later fails. -/
theorem endpoint_returns_immediate_ack_witness :
    root reqEx envOkEx = .ok ackJson ∧
    (pipeline reqEx envOkEx (.error "target unreachable")
        (fun _ => .ok 200)).response = .ok ackJson :=
  ⟨rfl, ((endpoint_returns_immediate_ack reqEx envOkEx ackJson rfl).2
      (.error "target unreachable") (fun _ => .ok 200)).1⟩

/-- C2: whenever the backend call errors, the backend status is not a
success, the reply is not parseable as the expected callable shape, or
compiling the reply raises, the invocation fails synchronously with a
500-class error, no background task is scheduled, and no webhook delivery is
issued. -/
theorem synthesis_failure_synchronous (request_data : ForwardRequest)
    (env : SynthEnv) (h : synthesisFails request_data env) :
    (∃ e, root request_data env = .error e) ∧
    ∀ (actionResult : Except Exn HttpxResponse) (outcomes : Nat → Except Exn Nat),
      (pipeline request_data env actionResult outcomes).taskScheduled = false ∧
      (pipeline request_data env actionResult outcomes).deliveries = [] ∧
      ∃ e, (pipeline request_data env actionResult outcomes).response = .error e := by
  have hroot : ∃ e, root request_data env = .error e := by
    rcases hr : root request_data env with e | j
    · exact ⟨e, rfl⟩
    · exfalso
      unfold synthesisFails at h
      simp only [root] at hr
      repeat' split at hr
      all_goals simp_all
  obtain ⟨e, hr⟩ := hroot
  refine ⟨⟨e, hr⟩, fun actionResult outcomes => ?_⟩
  rw [pipeline_of_root_error request_data env actionResult outcomes e hr]
  exact ⟨rfl, rfl, e, rfl⟩

/-- Witness for C2: a backend whose call raises; the invocation fails with
no deliveries. -/
theorem synthesis_failure_synchronous_witness :
    synthesisFails reqEx envFailEx ∧
    (pipeline reqEx envFailEx (.ok rJsonEx) (fun _ => .ok 200)).deliveries = [] :=
  ⟨by exact trivial,
   ((synthesis_failure_synchronous reqEx envFailEx (by exact trivial)).2
      (.ok rJsonEx) (fun _ => .ok 200)).2.1⟩

/-- C3: when the scheduled action raises, the completion callback re-raises
the task's exception (it escapes into the unhandled-background-error
channel) and zero delivery tasks are created, however many webhooks the
request supplied. -/
theorem action_failure_no_webhook_posts (request_data : ForwardRequest)
    (env : SynthEnv) (ack : Json) (e : Exn) (outcomes : Nat → Except Exn Nat)
    (h : root request_data env = .ok ack) :
    reply_to_webhooks request_data.webhooks (.error e) = .error e ∧
    (pipeline request_data env (.error e) outcomes).callbackRaised = true ∧
    (pipeline request_data env (.error e) outcomes).deliveries = [] := by
  refine ⟨rfl, ?_, ?_⟩
  · rw [pipeline_of_action_error request_data env outcomes ack e h]
  · rw [pipeline_of_action_error request_data env outcomes ack e h]

/-- Witness for C3: a concrete invocation with two webhooks whose action
raises; no delivery is attempted. -/
theorem action_failure_no_webhook_posts_witness :
    root reqEx envOkEx = .ok ackJson ∧
    (pipeline reqEx envOkEx (.error "boom") (fun _ => .ok 200)).deliveries = [] :=
  ⟨rfl, (action_failure_no_webhook_posts reqEx envOkEx ackJson "boom"
      (fun _ => .ok 200) rfl).2.2⟩

/-- C4: the envelope is exactly the two-field object
`response_status_code` / `response_data`, with `response_data` the parsed
JSON body when the declared Content-Type contains `application/json`, the
decoded text when it contains `text`, and otherwise the base64 encoding of
the raw bytes. -/
theorem envelope_two_fields (r : HttpxResponse) :
    (∀ j, ctDeclaresJson r → r.jsonResult = .ok j →
        encodeResponse r =
          .ok (.obj [("response_status_code", .num (r.status_code : Int)),
                     ("response_data", j)])) ∧
    (¬ ctDeclaresJson r → ctDeclaresText r →
        encodeResponse r =
          .ok (.obj [("response_status_code", .num (r.status_code : Int)),
                     ("response_data", .str r.text)])) ∧
    (¬ ctDeclaresJson r → ¬ ctDeclaresText r →
        encodeResponse r =
          .ok (.obj [("response_status_code", .num (r.status_code : Int)),
                     ("response_data", .str (b64encode r.content))])) :=
  ⟨fun j hct hj => encodeResponse_json r j hct hj,
   fun hnj ht => encodeResponse_text r hnj ht,
   fun hnj hnt => encodeResponse_binary r hnj hnt⟩

/-- Witness for C4: a JSON response with body `a = 1` and status 201 yields
exactly the envelope with `response_status_code = 201` and the parsed body
under `response_data`. -/
theorem envelope_two_fields_witness :
    ctDeclaresJson rJsonEx ∧
    encodeResponse rJsonEx =
      .ok (.obj [("response_status_code", .num 201),
                 ("response_data", .obj [("a", .num 1)])]) :=
  ⟨rfl, (envelope_two_fields rJsonEx).1 (.obj [("a", .num 1)]) rfl rfl⟩

/-- C5: on action success, one delivery task is created per element of the
webhook list, in order; the `i`-th delivery is a function of webhook `i` and
its own network outcome alone, so a network or HTTP failure of one delivery
does not block, cancel or alter the others; and the invocation's synchronous
outcome stays the success acknowledgment whatever the deliveries do. -/
theorem success_fanout_independent (request_data : ForwardRequest)
    (env : SynthEnv) (ack : Json) (resp : HttpxResponse)
    (outcomes : Nat → Except Exn Nat) (h : root request_data env = .ok ack) :
    (pipeline request_data env (.ok resp) outcomes).deliveries.length =
      request_data.webhooks.length ∧
    (∀ i, (pipeline request_data env (.ok resp) outcomes).deliveries[i]? =
      (request_data.webhooks[i]?).map
        (fun w => forward_response resp w (some ()) (outcomes i))) ∧
    (∀ (outcomes2 : Nat → Except Exn Nat) (i : Nat), outcomes2 i = outcomes i →
      (pipeline request_data env (.ok resp) outcomes2).deliveries[i]? =
      (pipeline request_data env (.ok resp) outcomes).deliveries[i]?) ∧
    (pipeline request_data env (.ok resp) outcomes).response = .ok ack := by
  have key : ∀ oc : Nat → Except Exn Nat,
      (pipeline request_data env (.ok resp) oc).deliveries =
        runDeliveries (request_data.webhooks.map fun w => (resp, w)) oc := by
    intro oc
    rw [pipeline_of_action_ok request_data env oc ack resp h]
  refine ⟨?_, ?_, ?_, ?_⟩
  · rw [key outcomes, runDeliveries_length, List.length_map]
  · intro i
    rw [key outcomes, runDeliveries_getElem]
    cases hw : request_data.webhooks[i]? <;>
      simp [List.getElem?_map, hw]
  · intro outcomes2 i h12
    rw [key outcomes, key outcomes2, runDeliveries_getElem,
        runDeliveries_getElem, h12]
  · rw [pipeline_of_action_ok request_data env outcomes ack resp h]

/-- Witness for C5: a concrete succeeding invocation with two webhooks
creates exactly one delivery per webhook. -/
theorem success_fanout_independent_witness :
    root reqEx envOkEx = .ok ackJson ∧
    (pipeline reqEx envOkEx (.ok rJsonEx) (fun _ => .ok 200)).deliveries.length =
      reqEx.webhooks.length :=
  ⟨rfl, (success_fanout_independent reqEx envOkEx ackJson rJsonEx
      (fun _ => .ok 200) rfl).1⟩

/-- C6: for a binary (neither JSON nor text) declared content type, the
delivered payload is the base64 string of the response bytes, and base64
decoding reproduces the original bytes exactly. -/
theorem binary_payload_roundtrip (r : HttpxResponse)
    (hnj : ¬ ctDeclaresJson r) (hnt : ¬ ctDeclaresText r)
    (hbytes : ∀ x ∈ r.content, x < 256) :
    encodeResponse r =
      .ok (.obj [("response_status_code", .num (r.status_code : Int)),
                 ("response_data", .str (b64encode r.content))]) ∧
    b64decode (b64encode r.content) = r.content :=
  ⟨encodeResponse_binary r hnj hnt, b64decode_b64encode r.content hbytes⟩

/-- Witness for C6: a concrete binary response round-trips through the
encoder's base64 payload. -/
theorem binary_payload_roundtrip_witness :
    (¬ ctDeclaresJson rBinEx) ∧ (¬ ctDeclaresText rBinEx) ∧
    b64decode (b64encode rBinEx.content) = rBinEx.content :=
  ⟨by decide, by decide,
   (binary_payload_roundtrip rBinEx (by decide) (by decide) (by decide)).2⟩

/-- C7: when the declared Content-Type contains `application/json` but the
body fails to parse, that delivery attempt issues no POST and fails with the
encoding error; and since every delivery attempt of an invocation is a
function of its own scheduled pair and its own network outcome alone, the
failure is confined to that single attempt. -/
theorem json_parse_failure_isolated (r : HttpxResponse) (url : String)
    (client : Option Unit) (post : Except Exn Nat) (e : Exn)
    (hct : ctDeclaresJson r) (hj : r.jsonResult = .error e) :
    (forward_response r url client post).posted = [] ∧
    (forward_response r url client post).result = .error (.encoding e) ∧
    ∀ (sch : List (HttpxResponse × String)) (oc : Nat → Except Exn Nat) (i : Nat),
      (runDeliveries sch oc)[i]? =
        (sch[i]?).map (fun p => forward_response p.1 p.2 (some ()) (oc i)) := by
  have henc : encodeResponse r = .error e := encodeResponse_json_error r e hct hj
  refine ⟨?_, ?_, runDeliveries_getElem⟩ <;> simp [forward_response, henc]

/-- Witness for C7: a concrete JSON-declared response with an unparseable
body produces no POST. -/
theorem json_parse_failure_isolated_witness :
    ctDeclaresJson rBadJsonEx ∧
    (forward_response rBadJsonEx "http://localhost:8000/receive_data" (some ())
        (.ok 200)).posted = [] :=
  ⟨rfl, (json_parse_failure_isolated rBadJsonEx
      "http://localhost:8000/receive_data" (some ()) (.ok 200)
      "Expecting value: line 1 column 1" rfl rfl).1⟩

/-- C8: with no shared client supplied, whenever the envelope is built (so
the single POST is attempted) a fresh fallback client is created and closed
before the function returns or propagates — on the normal return and on the
raising POST alike; and on the encoding-failure exit no client is ever
acquired, so nothing is leaked on that path either. -/
theorem fallback_client_always_released (r : HttpxResponse) (url : String)
    (post : Except Exn Nat) :
    (∀ post_json, encodeResponse r = .ok post_json →
        (forward_response r url none post).newClientCreated = true ∧
        (forward_response r url none post).newClientClosed = true) ∧
    (∀ e, encodeResponse r = .error e →
        (forward_response r url none post).newClientCreated = false ∧
        (forward_response r url none post).posted = []) := by
  constructor
  · intro post_json henc
    cases post <;> simp [forward_response, henc]
  · intro e henc
    simp [forward_response, henc]

/-- Witness for C8: a concrete text response delivered without a shared
client over a raising POST still closes the fallback client. -/
theorem fallback_client_always_released_witness :
    encodeResponse rTextEx =
      .ok (.obj [("response_status_code", .num 200),
                 ("response_data", .str "ok")]) ∧
    (forward_response rTextEx "http://host2/hook" none
        (.error "connection reset")).newClientClosed = true :=
  ⟨rfl, ((fallback_client_always_released rTextEx "http://host2/hook"
      (.error "connection reset")).1
      (.obj [("response_status_code", .num 200), ("response_data", .str "ok")])
      rfl).2⟩

/-- C9: with a shared client supplied, `forward_response` never closes it on
any exit path, and never creates or closes a fallback client — only the
internally created fallback client is ever closed. -/
theorem shared_client_never_closed (r : HttpxResponse) (url : String)
    (post : Except Exn Nat) :
    (forward_response r url (some ()) post).sharedClientClosed = false ∧
    (forward_response r url (some ()) post).newClientCreated = false ∧
    (forward_response r url (some ()) post).newClientClosed = false := by
  rcases henc : encodeResponse r with e | post_json <;> cases post <;>
    simp [forward_response, henc]

/-- C10: a request with an empty webhook list is accepted and behaves like
any other: `root` does not depend on the webhook list at all, the caller
receives the same success acknowledgment, and on successful action
completion zero delivery attempts are made and the callback raises nothing —
the action's result is silently discarded. -/
theorem empty_webhooks_accepted (http_desc : String) (env : SynthEnv)
    (resp : HttpxResponse) (outcomes : Nat → Except Exn Nat) (ack : Json)
    (h : root { http_desc := http_desc, webhooks := [] } env = .ok ack) :
    (∀ webhooks : List String,
        root { http_desc := http_desc, webhooks := webhooks } env =
        root { http_desc := http_desc, webhooks := [] } env) ∧
    reply_to_webhooks [] (.ok resp) = .ok [] ∧
    (pipeline { http_desc := http_desc, webhooks := [] } env (.ok resp)
        outcomes).response = .ok ack ∧
    (pipeline { http_desc := http_desc, webhooks := [] } env (.ok resp)
        outcomes).deliveries = [] ∧
    (pipeline { http_desc := http_desc, webhooks := [] } env (.ok resp)
        outcomes).callbackRaised = false := by
  refine ⟨fun webhooks => rfl, rfl, ?_, ?_, ?_⟩
  · rw [pipeline_of_action_ok _ env outcomes ack resp h]
  · rw [pipeline_of_action_ok _ env outcomes ack resp h]
    rfl
  · rw [pipeline_of_action_ok _ env outcomes ack resp h]

/-- Witness for C10: a concrete succeeding invocation with no webhooks
returns the acknowledgment and makes zero deliveries. -/
theorem empty_webhooks_accepted_witness :
    root { http_desc := "ping example.com", webhooks := [] } envOkEx =
      .ok ackJson ∧
    (pipeline { http_desc := "ping example.com", webhooks := [] } envOkEx
        (.ok rTextEx) (fun _ => .ok 200)).deliveries = [] :=
  ⟨rfl, (empty_webhooks_accepted "ping example.com" envOkEx rTextEx
      (fun _ => .ok 200) ackJson rfl).2.2.2.1⟩

end AsyncRequestProxy
